import Mathlib

/-!
Verification of the remote-inject relay server core
(`packages/server/src/session.ts`, `packages/server/src/ratelimit.ts`, and the
Elysia HTTP/WS handlers of the server entry module).

The embedding is shallow: the in-memory `Map` of sessions becomes an
association list kept in insertion order (JS `Map` iterates in insertion
order; `set` of a fresh key appends, mutation of a stored record is an
in-place update), `Date.now()` becomes an explicit `now : Nat` parameter,
WebSocket handles become opaque numeric identifiers, and the cryptographic
RNG becomes an explicit byte tape.  Functions that in the source mutate state
return the new state; socket I/O (`ws.send`, `ws.close`) is returned as an
event list.
-/

/-- WebSocket connection handles (`ServerWebSocket` objects) are opaque;
only identity matters to the relay. -/
abbrev Conn := Nat

/-- `type SessionStatus = 'pending' | 'connected' | 'disconnected'` -/
inductive SessionStatus where
  | pending
  | connected
  | disconnected
deriving DecidableEq

/-- `interface DAppMetadata { name: string; url: string; icon?: string }` -/
structure DAppMetadata where
  name : String
  url : String
  icon : Option String
deriving DecidableEq

/-- The session record of `session.ts`.

The `terminated` field is not present in the `src/` snapshot of
`session.ts`; it is modelled from the spec (§3: "`terminated` — boolean; once
set, no further attachments are permitted") and from the repository's own
unit tests, which import `terminateSession` from `../../src/session` and
assert that `createSession` initializes `terminated` to `false`. -/
structure Session where
  id : String
  secret : String
  createdAt : Nat
  expiresAt : Nat
  status : SessionStatus
  dapp : Option Conn
  mobile : Option Conn
  metadata : Option DAppMetadata
  mobileLocked : Bool
  terminated : Bool
deriving DecidableEq

/-- `const sessions = new Map<string, Session>()`, as an insertion-ordered
association list. -/
abbrev Store := List (String × Session)

/-- `const CHARSET = 'ABCDEFGHJKLMNPQRSTUVWXYZ23456789'` -/
def CHARSET : String := "ABCDEFGHJKLMNPQRSTUVWXYZ23456789"

def SESSION_ID_LENGTH : Nat := 4

def SECRET_LENGTH : Nat := 16

/-- `const PENDING_TIMEOUT = 5 * 60 * 1000` -/
def PENDING_TIMEOUT : Nat := 5 * 60 * 1000

/-- `const CONNECTED_TIMEOUT = 24 * 60 * 60 * 1000` -/
def CONNECTED_TIMEOUT : Nat := 24 * 60 * 60 * 1000

/-- `const MAX_SESSIONS = parseInt(process.env.MAX_SESSIONS || '10000', 10)`,
at its default value. -/
def MAX_SESSIONS : Nat := 10000

/-- `sessions.get(id)` -/
def getSession (store : Store) (id : String) : Option Session :=
  (store.find? (fun p => p.1 == id)).map (fun p => p.2)

/-- Mutation of the record stored under `id` (JS objects are aliased, so
assigning to a field of `sessions.get(id)` updates the stored entry in
place, preserving map order). -/
def updateSession (store : Store) (id : String) (f : Session → Session) : Store :=
  store.map (fun p => if p.1 == id then (p.1, f p.2) else p)

/-- `sessions.delete(id)` (`deleteSession`). -/
def deleteSession (store : Store) (id : String) : Store :=
  store.filter (fun p => !(p.1 == id))

/-- `isAtCapacity(): sessions.size >= MAX_SESSIONS` -/
def isAtCapacity (store : Store) : Bool :=
  decide (store.length ≥ MAX_SESSIONS)

/-- `verifySecret(sessionId, secret)` -/
def verifySecret (store : Store) (sessionId : String) (secret : String) : Bool :=
  match getSession store sessionId with
  | none => false
  | some s => s.secret == secret

/-- `isMobileLocked(sessionId)` -/
def isMobileLocked (store : Store) (sessionId : String) : Bool :=
  match getSession store sessionId with
  | none => false
  | some s => s.mobileLocked

/-- `CHARSET[byte % CHARSET.length]` -/
def charFromByte (b : Nat) : Char :=
  CHARSET.toList.getD (b % CHARSET.length) 'A'

/-- `generateRandomString(length)`: the `length` bytes drawn from
`crypto.getRandomValues` are supplied as the explicit tape `bytes`. -/
def generateRandomString (len : Nat) (bytes : Nat → Nat) : String :=
  String.mk ((List.range len).map (fun i => charFromByte (bytes i)))

/-- The do/while rejection-sampling loop of `generateSessionId`; `rng k` is
the byte tape drawn at iteration `k`, and `fuel` bounds the number of
iterations (the source loop is unbounded; `none` models non-termination,
which has probability `0`). -/
def generateSessionIdAux (store : Store) (rng : Nat → Nat → Nat) :
    Nat → Nat → Option String
  | _, 0 => none
  | k, fuel + 1 =>
    let id := generateRandomString SESSION_ID_LENGTH (rng k)
    if (getSession store id).isSome then generateSessionIdAux store rng (k + 1) fuel
    else some id

/-- `generateSessionId()` -/
def generateSessionId (store : Store) (rng : Nat → Nat → Nat) (fuel : Nat) :
    Option String :=
  generateSessionIdAux store rng 0 fuel

/-- `generateSecret()` -/
def generateSecret (bytes : Nat → Nat) : String :=
  generateRandomString SECRET_LENGTH bytes

/-- `createSession(metadata?)`: builds the record and `sessions.set`s it
(fresh key, hence appended in map order).  `terminated := false` follows the
repository's unit tests (the field is absent from the `src/` snapshot). -/
def createSession (store : Store) (rng : Nat → Nat → Nat) (secretBytes : Nat → Nat)
    (fuel : Nat) (now : Nat) (metadata : Option DAppMetadata) :
    Option (Session × Store) :=
  match generateSessionId store rng fuel with
  | none => none
  | some id =>
    let session : Session :=
      { id := id
        secret := generateSecret secretBytes
        createdAt := now
        expiresAt := now + PENDING_TIMEOUT
        status := .pending
        dapp := none
        mobile := none
        metadata := metadata
        mobileLocked := false
        terminated := false }
    some (session, store ++ [(session.id, session)])

/-- `'dapp' | 'mobile'` -/
inductive Role where
  | dapp
  | mobile
deriving DecidableEq

/-- The both-attached step at the end of `registerConnection`:
`if (session.dapp && session.mobile) { status = 'connected';
expiresAt = Date.now() + CONNECTED_TIMEOUT }`. -/
def connectIfBoth (s : Session) (now : Nat) : Session :=
  if s.dapp.isSome && s.mobile.isSome then
    { s with status := .connected, expiresAt := now + CONNECTED_TIMEOUT }
  else s

/-- `registerConnection(sessionId, role, ws)`: returns the (mutated) session
on success together with the new store, or `none` leaving the store
untouched.  `now` is the `Date.now()` read in the both-attached branch. -/
def registerConnection (store : Store) (sessionId : String) (role : Role)
    (ws : Conn) (now : Nat) : Option Session × Store :=
  match getSession store sessionId with
  | none => (none, store)
  | some session =>
    match role with
    | .dapp =>
      let s2 := connectIfBoth { session with dapp := some ws } now
      (some s2, updateSession store sessionId (fun _ => s2))
    | .mobile =>
      if session.mobileLocked && session.mobile.isSome then (none, store)
      else
        let s2 := connectIfBoth { session with mobile := some ws, mobileLocked := true } now
        (some s2, updateSession store sessionId (fun _ => s2))

/-- `unregisterConnection(sessionId, role)`: clears the slot named by `role`
(never comparing connection handles), unlocks on `mobile`, and sets
`status := 'disconnected'`. -/
def unregisterConnection (store : Store) (sessionId : String) (role : Role) :
    Store :=
  match getSession store sessionId with
  | none => store
  | some _ =>
    updateSession store sessionId (fun s =>
      match role with
      | .dapp => { s with dapp := none, status := .disconnected }
      | .mobile =>
        { s with mobile := none, mobileLocked := false, status := .disconnected })

/-- `getPeer(sessionId, myRole)` -/
def getPeer (store : Store) (sessionId : String) (myRole : Role) : Option Conn :=
  match getSession store sessionId with
  | none => none
  | some s => match myRole with | .dapp => s.mobile | .mobile => s.dapp

/-- Modelled from the spec: `terminateSession(id)` "sets `terminated := true`,
`status := disconnected`, closes both attached connections".  The function is
imported from `src/session` by the repository's unit tests but is absent from
the `src/` snapshot of `session.ts`.  The handles of the connections the
source closes are returned. -/
def terminateSession (store : Store) (sessionId : String) : Store × List Conn :=
  match getSession store sessionId with
  | none => (store, [])
  | some s =>
    (updateSession store sessionId
        (fun s0 => { s0 with terminated := true, status := .disconnected }),
      (match s.dapp with | some c => [c] | none => []) ++
      (match s.mobile with | some c => [c] | none => []))

/-- Modelled from the spec: `registerConnection` of the repository version
that ships `terminateSession` additionally "Fails (returns none) if: …
session terminated" (§4.3); the repository's unit tests assert
`registerConnection` returns `null` after `terminateSession`.  The `src/`
snapshot of `registerConnection` (embedded verbatim above) predates the
`terminated` field, so the guard is added here as a separate, clearly named
definition. -/
def registerConnectionT (store : Store) (sessionId : String) (role : Role)
    (ws : Conn) (now : Nat) : Option Session × Store :=
  match getSession store sessionId with
  | none => (none, store)
  | some s =>
    if s.terminated then (none, store)
    else registerConnection store sessionId role ws now

/-- Socket I/O performed by a handler, in program order. -/
inductive WsEvent where
  | send (conn : Conn) (payload : String)
  | close (conn : Conn) (code : Nat) (reason : String)
deriving DecidableEq

/-- The two `session.xxx?.close(1000, 'Session expired')` calls of the
sweeper, dapp first. -/
def closeExpired (s : Session) : List WsEvent :=
  (match s.dapp with | some c => [.close c 1000 "Session expired"] | none => []) ++
  (match s.mobile with | some c => [.close c 1000 "Session expired"] | none => [])

/-- `cleanupExpiredSessions()`: deletes every record with
`now > expiresAt`, closing its attached connections. -/
def cleanupExpiredSessions (store : Store) (now : Nat) : Store × List WsEvent :=
  (store.filter (fun p => decide (now ≤ p.2.expiresAt)),
   store.flatMap (fun p => if now > p.2.expiresAt then closeExpired p.2 else []))

/-- `interface RateLimitEntry { count: number; resetAt: number }` -/
structure RateLimitEntry where
  count : Nat
  resetAt : Nat
deriving DecidableEq

/-- `interface RateLimiterConfig { windowMs: number; maxRequests: number }` -/
structure RateLimiterConfig where
  windowMs : Nat
  maxRequests : Nat
deriving DecidableEq

/-- The `RateLimiter` class: its config and its `entries` map
(insertion-ordered, like a JS `Map`). -/
structure RateLimiter where
  config : RateLimiterConfig
  entries : List (String × RateLimitEntry)
deriving DecidableEq

/-- `this.entries.get(key)` -/
def rlLookup (entries : List (String × RateLimitEntry)) (key : String) :
    Option RateLimitEntry :=
  (entries.find? (fun p => p.1 == key)).map (fun p => p.2)

/-- `this.entries.set(key, e)`: replace in place, or append a fresh key. -/
def rlSet (entries : List (String × RateLimitEntry)) (key : String)
    (e : RateLimitEntry) : List (String × RateLimitEntry) :=
  match entries with
  | [] => [(key, e)]
  | p :: rest => if p.1 == key then (key, e) :: rest else p :: rlSet rest key e

/-- `RateLimiter.check(key)`; `now` is the `Date.now()` read at entry. -/
def RateLimiter.check (rl : RateLimiter) (key : String) (now : Nat) :
    Bool × RateLimiter :=
  match rlLookup rl.entries key with
  | none =>
    (true, { rl with entries := rlSet rl.entries key ⟨1, now + rl.config.windowMs⟩ })
  | some entry =>
    if now ≥ entry.resetAt then
      (true, { rl with entries := rlSet rl.entries key ⟨1, now + rl.config.windowMs⟩ })
    else if entry.count ≥ rl.config.maxRequests then (false, rl)
    else
      (true,
        { rl with entries := rlSet rl.entries key ⟨entry.count + 1, entry.resetAt⟩ })

/-- The `{remaining, resetAt}` result of `RateLimiter.getInfo`. -/
structure RateLimitInfo where
  remaining : Nat
  resetAt : Nat
deriving DecidableEq

/-- `RateLimiter.getInfo(key)`; `Math.max(0, max - count)` is the truncated
subtraction of `Nat`. -/
def RateLimiter.getInfo (rl : RateLimiter) (key : String) (now : Nat) :
    RateLimitInfo :=
  match rlLookup rl.entries key with
  | none => ⟨rl.config.maxRequests, now + rl.config.windowMs⟩
  | some entry =>
    if now ≥ entry.resetAt then ⟨rl.config.maxRequests, now + rl.config.windowMs⟩
    else ⟨rl.config.maxRequests - entry.count, entry.resetAt⟩

/-- `RateLimiter.cleanup()` -/
def RateLimiter.cleanup (rl : RateLimiter) (now : Nat) : RateLimiter :=
  { rl with entries := rl.entries.filter (fun p => decide (now < p.2.resetAt)) }

/-- JS truthiness of a possibly-absent header / query / JSON string value:
`null`/absent and the empty string are falsy. -/
def jsTruthy (o : Option String) : Bool :=
  match o with
  | none => false
  | some s => !(s == "")

/-- `a || d` on a possibly-absent string. -/
def jsOr (o : Option String) (d : String) : String :=
  if jsTruthy o then o.getD "" else d

/-- The parts of an inbound HTTP request the handlers read.  `body` is the
result of `await request.json()`: `none` when there is no body or parsing
throws, otherwise the `name`/`url`/`icon` string fields (absent fields are
`none`). -/
structure HttpRequest where
  xForwardedFor : Option String
  xRealIP : Option String
  xForwardedProto : Option String
  host : Option String
  body : Option (Option String × Option String × Option String)
deriving DecidableEq

/-- `getClientIP(request)` -/
def getClientIP (req : HttpRequest) : String :=
  if jsTruthy req.xForwardedFor then
    (((req.xForwardedFor.getD "").splitOn ",").headD "").trim
  else if jsTruthy req.xRealIP then req.xRealIP.getD ""
  else "unknown"

/-- `const HOST = process.env.HOST || 'localhost'`, at its default. -/
def HOST : String := "localhost"

/-- `const PORT = … : 3700`, at its default. -/
def PORT : Nat := 3700

/-- The metadata-recognition step of `POST /session`: the parsed body is
accepted only when `body.name` and `body.url` are truthy. -/
def postMetadata (req : HttpRequest) : Option DAppMetadata :=
  match req.body with
  | none => none
  | some (bname, burl, bicon) =>
    if jsTruthy bname && jsTruthy burl then
      some ⟨bname.getD "", burl.getD "", bicon⟩
    else none

/-- The three possible responses of `POST /session`. -/
inductive PostResult where
  | serverAtCapacity
  | rateLimited (retryAfter : Nat) (remaining : Nat)
  | created (id : String) (url : String) (expiresAt : Nat)
deriving DecidableEq

/-- The `POST /session` handler.  The handler's several `Date.now()` reads
(inside `check`, `getInfo` and the `Retry-After` computation) are modelled as
the single instant `now`.  `Math.ceil(d / 1000)` on the (branch-guaranteed
positive) millisecond gap `d` is `(d + 999) / 1000` in `Nat`.  `none` models
only the probability-zero case that id generation never terminates. -/
def postSession (store : Store) (rl : RateLimiter) (req : HttpRequest) (now : Nat)
    (rng : Nat → Nat → Nat) (secretBytes : Nat → Nat) (fuel : Nat) :
    Option (PostResult × Store × RateLimiter) :=
  if isAtCapacity store then some (.serverAtCapacity, store, rl)
  else
    let clientIP := getClientIP req
    let checked := rl.check clientIP now
    if !checked.1 then
      let info := checked.2.getInfo clientIP now
      some (.rateLimited ((info.resetAt - now + 999) / 1000) info.remaining,
        store, checked.2)
    else
      match createSession store rng secretBytes fuel now (postMetadata req) with
      | none => none
      | some (session, store') =>
        let protocol := jsOr req.xForwardedProto "http"
        let host := jsOr req.host (HOST ++ ":" ++ toString PORT)
        let url :=
          protocol ++ "://" ++ host ++ "/s/" ++ session.id ++ "?k=" ++ session.secret
        some (.created session.id url session.expiresAt, store', checked.2)

/-- The `?session=…&role=…&k=…` query of `GET /ws`, raw strings as Elysia
delivers them (`none` = absent). -/
structure WsQuery where
  session : Option String
  role : Option String
  k : Option String
deriving DecidableEq

/-- The `beforeHandle` hook of `.ws('/ws', …)`: `some (status, text)` is the
pre-upgrade HTTP failure response, `none` lets the upgrade proceed.  The hook
only reads; it has no effect on the store (it does not even return one). -/
def wsBeforeHandle (store : Store) (q : WsQuery) : Option (Nat × String) :=
  if !jsTruthy q.session || !jsTruthy q.role then
    some (400, "Missing session or role parameter")
  else
    let session := q.session.getD ""
    let role := q.role.getD ""
    if !(role == "dapp") && !(role == "mobile") then
      some (400, "Invalid role, must be \"dapp\" or \"mobile\"")
    else
      match getSession store session with
      | none => some (404, "Session not found")
      | some _ =>
        if role == "mobile" then
          if !jsTruthy q.k || !verifySecret store session (q.k.getD "") then
            some (403, "Invalid or missing secret")
          else if isMobileLocked store session then
            some (409, "Session already has a mobile connection")
          else none
        else none

/-- `JSON.stringify({ type: 'ready' })` -/
def readyMsg : String := "\x7b\"type\":\"ready\"\x7d"

/-- `JSON.stringify({ type: 'dapp_reconnected' })` -/
def dappReconnectedMsg : String := "\x7b\"type\":\"dapp_reconnected\"\x7d"

/-- `JSON.stringify({ type: 'error', code: -32000, message: 'Peer not connected' })` -/
def peerNotConnectedMsg : String :=
  "\x7b\"type\":\"error\",\"code\":-32000,\"message\":\"Peer not connected\"\x7d"

/-- `JSON.stringify({ type: 'disconnect', reason: 'Peer disconnected' })` -/
def peerDisconnectMsg : String :=
  "\x7b\"type\":\"disconnect\",\"reason\":\"Peer disconnected\"\x7d"

/-- The `message` argument of the WS message handler.  A text frame arrives
as its `String` payload (`str`); a delivery that is not a string is carried
by `other`, holding the `JSON.stringify(message)` text the handler computes
for it (the handler uses nothing else about it, and the original wire bytes
of such a delivery are not available to it). -/
inductive WsIncoming where
  | str (s : String)
  | other (stringified : String)
deriving DecidableEq

/-- `const msgStr = typeof message === 'string' ? message : JSON.stringify(message)` -/
def wsMessageText : WsIncoming → String
  | .str s => s
  | .other j => j

/-- The `message` handler of `.ws('/ws', …)`: forward to the peer, or report
`-32000` back to the sender.  The store is not modified (the handler only
calls `getPeer`). -/
def wsMessage (store : Store) (sessionId : String) (role : Role) (sender : Conn)
    (message : WsIncoming) : List WsEvent :=
  let msgStr := wsMessageText message
  match getPeer store sessionId role with
  | none => [.send sender peerNotConnectedMsg]
  | some peer => [.send peer msgStr]

/-- The `open` handler of `.ws('/ws', …)`: snapshot the existing peer, call
`registerConnection`, close `1008` on failure, else send `ready` and — on a
DApp (re)attachment with a Mobile already present — `dapp_reconnected`. -/
def wsOpen (store : Store) (sessionId : String) (role : Role) (conn : Conn)
    (now : Nat) : Store × List WsEvent :=
  let existingPeer := getPeer store sessionId role
  match registerConnection store sessionId role conn now with
  | (none, st) => (st, [.close conn 1008 "Session not found or already locked"])
  | (some _, st) =>
    (st, .send conn readyMsg ::
      (match role, existingPeer with
       | .dapp, some p => [.send p dappReconnectedMsg]
       | _, _ => []))

/-- The `close` handler of `.ws('/ws', …)`: unregister by role, then notify
the peer returned by `getPeer(sessionId, role === 'dapp' ? 'mobile' : 'dapp')`
(embedded exactly as written in the source).  The `if (sessionId && role)`
guard always holds here since `open` stores both. -/
def wsClose (store : Store) (sessionId : String) (role : Role) :
    Store × List WsEvent :=
  let st := unregisterConnection store sessionId role
  let peer :=
    getPeer st sessionId (match role with | .dapp => .mobile | .mobile => .dapp)
  (st, match peer with | some p => [.send p peerDisconnectMsg] | none => [])

/-- A WebSocket handler invocation, carrying the data the handler reads from
`ws.data` / the upgrade URL. -/
inductive WsCmd where
  | openWs (sessionId : String) (role : Role) (conn : Conn) (now : Nat)
  | messageWs (sessionId : String) (role : Role) (conn : Conn) (message : WsIncoming)
  | closeWs (sessionId : String) (role : Role)

/-- Dispatch one handler invocation. -/
def wsStep (store : Store) : WsCmd → Store × List WsEvent
  | .openWs sid role conn now => wsOpen store sid role conn now
  | .messageWs sid role conn m => (store, wsMessage store sid role conn m)
  | .closeWs sid role => wsClose store sid role

/-- Run a sequence of handler invocations, concatenating the socket I/O they
perform in program order. -/
def runCmds (store : Store) : List WsCmd → Store × List WsEvent
  | [] => (store, [])
  | c :: cs =>
    let s1 := wsStep store c
    let s2 := runCmds s1.1 cs
    (s2.1, s1.2 ++ s2.2)

/-- One session-store operation, for stating store invariants over arbitrary
call sequences. -/
inductive StoreOp where
  | register (sessionId : String) (role : Role) (conn : Conn) (now : Nat)
  | unregister (sessionId : String) (role : Role)
  | terminate (sessionId : String)
  | create (rng : Nat → Nat → Nat) (secretBytes : Nat → Nat) (fuel : Nat)
      (now : Nat) (metadata : Option DAppMetadata)
  | delete (sessionId : String)
  | peek (sessionId : String) (role : Role)
  | cleanup (now : Nat)

/-- Apply one store operation to the store, parametrised by which register
implementation is in force (`registerConnection` as in the `src/` snapshot, or
`registerConnectionT` with the spec-modelled `terminated` guard).  `peek` is
the read-only `getPeer`. -/
def applyOp (reg : Store → String → Role → Conn → Nat → Option Session × Store)
    (store : Store) : StoreOp → Store
  | .register sid role conn now => (reg store sid role conn now).2
  | .unregister sid role => unregisterConnection store sid role
  | .terminate sid => (terminateSession store sid).1
  | .create rng sb fuel now md =>
    match createSession store rng sb fuel now md with
    | some (_, st) => st
    | none => store
  | .delete sid => deleteSession store sid
  | .peek _ _ => store
  | .cleanup now => (cleanupExpiredSessions store now).1

/-- Apply a sequence of store operations. -/
def applyOps (reg : Store → String → Role → Conn → Nat → Option Session × Store)
    (store : Store) (ops : List StoreOp) : Store :=
  ops.foldl (applyOp reg) store

/-! ### Basic store lemmas -/

/-- A sample pending record used by concrete witnesses. -/
def sampleSession : Session :=
  { id := "AAAA"
    secret := "CCCCCCCCCCCCCCCC"
    createdAt := 0
    expiresAt := 300000
    status := .pending
    dapp := none
    mobile := none
    metadata := none
    mobileLocked := false
    terminated := false }

/-! ### C10 — `unregisterConnection` identifies the attachment by role only -/

/-- The sample session with a Mobile attached (handle `5`). -/
def sampleWithMobile : Session :=
  { sampleSession with mobile := some 5, mobileLocked := true }

/-! ### C3 — frames are forwarded verbatim, or `-32000` to the sender -/

/-- The record `createSession` builds on the empty store from the all-zero
byte tape at `now = 0`. -/
def zeroTapeSession : Session :=
  { id := "AAAA"
    secret := "AAAAAAAAAAAAAAAA"
    createdAt := 0
    expiresAt := 300000
    status := .pending
    dapp := none
    mobile := none
    metadata := none
    mobileLocked := false
    terminated := false }

/-- The per-record invariant of claim C2, over a whole store. -/
def storeInv (store : Store) : Prop :=
  ∀ p ∈ store, p.2.mobileLocked = p.2.mobile.isSome

/-- The session named `sid` exists and is terminated. -/
def terminatedAt (store : Store) (sid : String) : Prop :=
  ∃ s, getSession store sid = some s ∧ s.terminated = true

/-- Which operations are allowed to intervene in claim C1: anything except
deleting the very session or running the sweeper (both of which can remove
the record altogether, after which the id no longer names this session). -/
def opSafeFor (sid : String) : StoreOp → Prop
  | .delete sid' => sid' ≠ sid
  | .cleanup _ => False
  | _ => True

/-- The sample session after a DApp attach of handle `7` joins the Mobile. -/
def sampleConnected : Session :=
  { sampleWithMobile with dapp := some 7, status := .connected, expiresAt := 86400000 }

/-- A store holding `MAX_SESSIONS` copies of the sample record. -/
def fullStore : Store := List.replicate 10000 ("AAAA", sampleSession)

/-- A request carrying no client-IP headers, an `https` forwarded proto and
a `Host` header, with no body. -/
def sampleRequest : HttpRequest :=
  { xForwardedFor := none
    xRealIP := none
    xForwardedProto := some "https"
    host := some "relay.example"
    body := none }

/-- A limiter whose `unknown` key has exhausted its 10-request budget in the
window ending at `50000`. -/
def exhaustedLimiter : RateLimiter :=
  { config := { windowMs := 60000, maxRequests := 10 }
    entries := [("unknown", { count := 10, resetAt := 50000 })] }

/-- A fresh limiter with the production configuration. -/
def freshLimiter : RateLimiter :=
  { config := { windowMs := 60000, maxRequests := 10 }
    entries := [] }

/-- Well-formed limiter state: every stored entry has `count ≥ 1`.  `check`
only ever stores counts `1` or `count + 1`, so every reachable state is
well-formed. -/
def rlWF (entries : List (String × RateLimitEntry)) : Prop :=
  ∀ p ∈ entries, 1 ≤ p.2.count

/-- A sequence of `check` calls on one key at the given instants, collecting
the results. -/
def rlRun (rl : RateLimiter) (key : String) : List Nat → List Bool × RateLimiter
  | [] => ([], rl)
  | t :: ts =>
    let c := rl.check key t
    let r := rlRun c.2 key ts
    (c.1 :: r.1, r.2)

theorem getSession_cons_eq (p : String × Session) (rest : Store) (sid : String)
    (hp : (p.1 == sid) = true) : getSession (p :: rest) sid = some p.2 := by
  simp [getSession, List.find?, hp]

theorem getSession_cons_ne (p : String × Session) (rest : Store) (sid : String)
    (hp : (p.1 == sid) = false) : getSession (p :: rest) sid = getSession rest sid := by
  simp only [getSession, List.find?, hp]

theorem updateSession_cons (p : String × Session) (rest : Store) (sid : String)
    (f : Session → Session) :
    updateSession (p :: rest) sid f =
      (if p.1 == sid then (p.1, f p.2) else p) :: updateSession rest sid f := rfl

theorem getSession_updateSession_self (store : Store) (sid : String)
    (f : Session → Session) (s : Session) (h : getSession store sid = some s) :
    getSession (updateSession store sid f) sid = some (f s) := by
  induction store with
  | nil => simp [getSession] at h
  | cons p rest ih =>
    rw [updateSession_cons]
    by_cases hp : (p.1 == sid) = true
    · rw [getSession_cons_eq p rest sid hp] at h
      rw [if_pos hp, getSession_cons_eq]
      · simpa using congrArg (Option.map f) h
      · simpa using hp
    · have hp' : (p.1 == sid) = false := by simpa using hp
      rw [getSession_cons_ne p rest sid hp'] at h
      rw [if_neg hp, getSession_cons_ne p _ sid hp']
      exact ih h

theorem getSession_updateSession_ne (store : Store) (sid sid' : String)
    (f : Session → Session) (h : sid' ≠ sid) :
    getSession (updateSession store sid f) sid' = getSession store sid' := by
  induction store with
  | nil => simp [getSession, updateSession]
  | cons p rest ih =>
    rw [updateSession_cons]
    by_cases hp : (p.1 == sid) = true
    · have hps : p.1 = sid := by simpa using hp
      have hq : (sid == sid') = false := by
        simp only [beq_eq_false_iff_ne, ne_eq]
        exact fun hh => h hh.symm
      have hq' : (p.1 == sid') = false := by rw [hps]; exact hq
      rw [if_pos hp, getSession_cons_ne p rest sid' hq',
        getSession_cons_ne (p.1, f p.2) (updateSession rest sid f) sid' hq']
      exact ih
    · have hp' : (p.1 == sid) = false := by simpa using hp
      rw [if_neg hp]
      by_cases hq : (p.1 == sid') = true
      · rw [getSession_cons_eq p _ sid' hq, getSession_cons_eq p rest sid' hq]
      · have hq' : (p.1 == sid') = false := by simpa using hq
        rw [getSession_cons_ne p _ sid' hq', getSession_cons_ne p rest sid' hq']
        exact ih

/-- Claim C10: `unregisterConnection(id, role)` identifies the attachment by
role only, never by connection handle: for every existing session — whatever
its slots hold, even a newer connection or nothing at all — a `mobile` call
sets `mobile := null`, `mobileLocked := false`, `status := disconnected`, and
a `dapp` call sets `dapp := null`, `status := disconnected`; so a pending
session can become `disconnected` without any prior attachment. -/
theorem claim_C10_unregister_by_role_only (store : Store) (sid : String)
    (s : Session) (role : Role) (h : getSession store sid = some s) :
    getSession (unregisterConnection store sid role) sid =
      some (match role with
        | .dapp => { s with dapp := none, status := .disconnected }
        | .mobile => { s with mobile := none, mobileLocked := false, status := .disconnected }) := by
  unfold unregisterConnection
  rw [h]
  exact getSession_updateSession_self store sid _ s h

/-- Witness for C10: a pending session with no attachments at all becomes
`disconnected` with both mobile fields cleared. -/
theorem claim_C10_witness :
    getSession (unregisterConnection [("AAAA", sampleSession)] "AAAA" .mobile)
        "AAAA" =
      some { sampleSession with mobile := none, mobileLocked := false, status := .disconnected } := by
  exact claim_C10_unregister_by_role_only [("AAAA", sampleSession)] "AAAA"
    sampleSession .mobile (by decide)

/-- Claim C3: for every frame received on an attached WebSocket — text frames
arrive in the handler as their `String` payload — if `getPeer` yields an
attached opposite-role peer, the handler's only I/O is sending exactly that
payload to the peer (nothing to the sender); if no peer is attached, its only
I/O is sending
`{"type":"error","code":-32000,"message":"Peer not connected"}` back to the
sender, forwarding nothing. -/
theorem claim_C3_forward_verbatim (store : Store) (sid : String) (role : Role)
    (sender : Conn) (s : String) :
    (∀ peer, getPeer store sid role = some peer →
      wsMessage store sid role sender (.str s) = [.send peer s]) ∧
    (getPeer store sid role = none →
      wsMessage store sid role sender (.str s) =
        [.send sender peerNotConnectedMsg]) := by
  constructor
  · intro peer hp
    simp [wsMessage, wsMessageText, hp]
  · intro hp
    simp [wsMessage, wsMessageText, hp]

/-- Witness for C3: a DApp frame reaches the attached Mobile byte-for-byte
(whitespace preserved), and with no Mobile attached the sender gets the
`-32000` error. -/
theorem claim_C3_witness :
    wsMessage [("AAAA", sampleWithMobile)] "AAAA" .dapp 9
        (.str "\x7b\"a\": 1\x7d") = [.send 5 "\x7b\"a\": 1\x7d"] ∧
    wsMessage [("AAAA", sampleSession)] "AAAA" .dapp 9 (.str "x") =
      [.send 9 peerNotConnectedMsg] :=
  ⟨(claim_C3_forward_verbatim [("AAAA", sampleWithMobile)] "AAAA" .dapp 9
      "\x7b\"a\": 1\x7d").1 5 (by decide),
   (claim_C3_forward_verbatim [("AAAA", sampleSession)] "AAAA" .dapp 9 "x").2
      (by decide)⟩

/-! ### C4 — handshake validation order and statuses -/

/-- Claim C4: the `beforeHandle` hook of `GET /ws` returns, before upgrade
and without touching the store (it is read-only by construction): 400 when
`session` or `role` is missing (JS-falsy), 400 when `role` is neither `dapp`
nor `mobile`, 404 when the session does not exist, 403 when `role=mobile` and
`k` is missing or `verifySecret` fails, 409 when `role=mobile` and
`isMobileLocked`, and lets the upgrade proceed otherwise; the precondition of
each branch records that all earlier checks passed, i.e. the checks apply in
exactly this order. -/
theorem claim_C4_handshake_validation (store : Store) (q : WsQuery) :
    ((jsTruthy q.session = false ∨ jsTruthy q.role = false) →
      wsBeforeHandle store q = some (400, "Missing session or role parameter")) ∧
    (∀ sid r, q.session = some sid → q.role = some r → sid ≠ "" → r ≠ "" →
      r ≠ "dapp" → r ≠ "mobile" →
      wsBeforeHandle store q = some (400, "Invalid role, must be \"dapp\" or \"mobile\"")) ∧
    (∀ sid r, q.session = some sid → q.role = some r → sid ≠ "" →
      (r = "dapp" ∨ r = "mobile") → getSession store sid = none →
      wsBeforeHandle store q = some (404, "Session not found")) ∧
    (∀ sid s, q.session = some sid → q.role = some "mobile" → sid ≠ "" →
      getSession store sid = some s →
      (jsTruthy q.k = false ∨ verifySecret store sid (q.k.getD "") = false) →
      wsBeforeHandle store q = some (403, "Invalid or missing secret")) ∧
    (∀ sid s kk, q.session = some sid → q.role = some "mobile" → sid ≠ "" →
      getSession store sid = some s → q.k = some kk → kk ≠ "" →
      verifySecret store sid kk = true → isMobileLocked store sid = true →
      wsBeforeHandle store q = some (409, "Session already has a mobile connection")) ∧
    (∀ sid s kk, q.session = some sid → q.role = some "mobile" → sid ≠ "" →
      getSession store sid = some s → q.k = some kk → kk ≠ "" →
      verifySecret store sid kk = true → isMobileLocked store sid = false →
      wsBeforeHandle store q = none) ∧
    (∀ sid s, q.session = some sid → q.role = some "dapp" → sid ≠ "" →
      getSession store sid = some s →
      wsBeforeHandle store q = none) := by
  refine ⟨?_, ?_, ?_, ?_, ?_, ?_, ?_⟩
  · intro h
    rcases h with h | h <;> simp [wsBeforeHandle, h]
  · intro sid r hs hr hsne hrne hrd hrm
    simp [wsBeforeHandle, jsTruthy, hs, hr, hsne, hrne, hrd, hrm]
  · intro sid r hs hr hsne hrole hget
    rcases hrole with h | h <;> subst h <;>
      simp [wsBeforeHandle, jsTruthy, hs, hr, hsne, hget]
  · intro sid s hs hr hsne hget hk
    have hcond : (!jsTruthy q.k || !verifySecret store sid (q.k.getD "")) = true := by
      rcases hk with h | h
      · simp [h]
      · simp [h]
    simp only [jsTruthy] at hcond
    simp [wsBeforeHandle, jsTruthy, hs, hr, hsne, hget, hcond]
  · intro sid s kk hs hr hsne hget hk hkne hver hlock
    simp [wsBeforeHandle, jsTruthy, hs, hr, hsne, hget, hk, hkne, hver, hlock]
  · intro sid s kk hs hr hsne hget hk hkne hver hlock
    simp [wsBeforeHandle, jsTruthy, hs, hr, hsne, hget, hk, hkne, hver, hlock]
  · intro sid s hs hr hsne hget
    simp [wsBeforeHandle, jsTruthy, hs, hr, hsne, hget]

/-- Witness for C4: each of the five failure statuses and the two pass cases
at concrete queries against a one-session store whose secret is
`CCCCCCCCCCCCCCCC` and a store with a locked Mobile. -/
theorem claim_C4_witness :
    wsBeforeHandle [("AAAA", sampleSession)] ⟨none, some "dapp", none⟩ =
      some (400, "Missing session or role parameter") ∧
    wsBeforeHandle [("AAAA", sampleSession)] ⟨some "AAAA", some "tv", none⟩ =
      some (400, "Invalid role, must be \"dapp\" or \"mobile\"") ∧
    wsBeforeHandle [("AAAA", sampleSession)] ⟨some "ZZZZ", some "dapp", none⟩ =
      some (404, "Session not found") ∧
    wsBeforeHandle [("AAAA", sampleSession)] ⟨some "AAAA", some "mobile", some "WRONG"⟩ =
      some (403, "Invalid or missing secret") ∧
    wsBeforeHandle [("AAAA", sampleWithMobile)]
        ⟨some "AAAA", some "mobile", some "CCCCCCCCCCCCCCCC"⟩ =
      some (409, "Session already has a mobile connection") ∧
    wsBeforeHandle [("AAAA", sampleSession)]
        ⟨some "AAAA", some "mobile", some "CCCCCCCCCCCCCCCC"⟩ = none ∧
    wsBeforeHandle [("AAAA", sampleSession)] ⟨some "AAAA", some "dapp", none⟩ = none := by
  refine ⟨?_, ?_, ?_, ?_, ?_, ?_, ?_⟩
  · exact (claim_C4_handshake_validation [("AAAA", sampleSession)]
      ⟨none, some "dapp", none⟩).1 (Or.inl (by decide))
  · exact (claim_C4_handshake_validation [("AAAA", sampleSession)]
      ⟨some "AAAA", some "tv", none⟩).2.1 "AAAA" "tv" rfl rfl (by decide)
      (by decide) (by decide) (by decide)
  · exact (claim_C4_handshake_validation [("AAAA", sampleSession)]
      ⟨some "ZZZZ", some "dapp", none⟩).2.2.1 "ZZZZ" "dapp" rfl rfl (by decide)
      (Or.inl rfl) (by decide)
  · exact (claim_C4_handshake_validation [("AAAA", sampleSession)]
      ⟨some "AAAA", some "mobile", some "WRONG"⟩).2.2.2.1 "AAAA" sampleSession
      rfl rfl (by decide) (by decide) (Or.inr (by decide))
  · exact (claim_C4_handshake_validation [("AAAA", sampleWithMobile)]
      ⟨some "AAAA", some "mobile", some "CCCCCCCCCCCCCCCC"⟩).2.2.2.2.1 "AAAA"
      sampleWithMobile "CCCCCCCCCCCCCCCC" rfl rfl (by decide) (by decide) rfl
      (by decide) (by decide) (by decide)
  · exact (claim_C4_handshake_validation [("AAAA", sampleSession)]
      ⟨some "AAAA", some "mobile", some "CCCCCCCCCCCCCCCC"⟩).2.2.2.2.2.1 "AAAA"
      sampleSession "CCCCCCCCCCCCCCCC" rfl rfl (by decide) (by decide) rfl
      (by decide) (by decide) (by decide)
  · exact (claim_C4_handshake_validation [("AAAA", sampleSession)]
      ⟨some "AAAA", some "dapp", none⟩).2.2.2.2.2.2 "AAAA" sampleSession rfl rfl
      (by decide) (by decide)

/-! ### C7 — the sweeper removes exactly the expired records -/

/-- Claim C7: `cleanupExpiredSessions` removes exactly the records with
`now > expiresAt` — every retained record is kept unchanged
(membership-preserving filter), and each still-attached connection of every
expired record is closed with code `1000`, reason `Session expired`. -/
theorem claim_C7_cleanup_exact (store : Store) (now : Nat) :
    (∀ p : String × Session,
      p ∈ (cleanupExpiredSessions store now).1 ↔ p ∈ store ∧ now ≤ p.2.expiresAt) ∧
    (∀ p : String × Session, p ∈ store → now > p.2.expiresAt →
      ∀ c : Conn, p.2.dapp = some c ∨ p.2.mobile = some c →
        WsEvent.close c 1000 "Session expired" ∈ (cleanupExpiredSessions store now).2) := by
  constructor
  · intro p
    simp [cleanupExpiredSessions, List.mem_filter]
  · intro p hmem hexp c hc
    have hev : WsEvent.close c 1000 "Session expired" ∈ closeExpired p.2 := by
      rcases hc with h | h
      · simp [closeExpired, h]
      · rcases hd : p.2.dapp with _ | d <;> simp [closeExpired, h, hd]
    simp only [cleanupExpiredSessions, List.mem_flatMap]
    exact ⟨p, hmem, by rw [if_pos hexp]; exact hev⟩

/-- Witness for C7: at `now = 1000`, a record expired at `10` with DApp
handle `3` attached gets `3` closed with `1000`/`Session expired`, while a
record expiring at `300000` is retained. -/
theorem claim_C7_witness :
    WsEvent.close 3 1000 "Session expired" ∈
      (cleanupExpiredSessions
        [("AAAA", { sampleSession with expiresAt := 10, dapp := some 3 }),
         ("BBBB", sampleSession)] 1000).2 ∧
    ("BBBB", sampleSession) ∈
      (cleanupExpiredSessions
        [("AAAA", { sampleSession with expiresAt := 10, dapp := some 3 }),
         ("BBBB", sampleSession)] 1000).1 := by
  refine ⟨(claim_C7_cleanup_exact _ 1000).2
      ("AAAA", { sampleSession with expiresAt := 10, dapp := some 3 })
      (by simp) (by decide) 3 (Or.inl rfl),
    ((claim_C7_cleanup_exact _ 1000).1 ("BBBB", sampleSession)).mpr
      ⟨by simp, by decide⟩⟩

/-! ### C8 — `createSession` produces well-formed, fresh records -/

theorem charFromByte_mem (b : Nat) : charFromByte b ∈ CHARSET.toList := by
  have hlen : CHARSET.length = 32 := by decide
  have hball : ∀ r, r < 32 → CHARSET.toList.getD r 'A' ∈ CHARSET.toList := by decide
  unfold charFromByte
  rw [hlen]
  exact hball (b % 32) (Nat.mod_lt _ (by decide))

theorem charFromByte_not_confusing (b : Nat) :
    charFromByte b ∉ (['0', 'O', '1', 'I'] : List Char) := by
  have hlen : CHARSET.length = 32 := by decide
  have hball : ∀ r, r < 32 →
      CHARSET.toList.getD r 'A' ∉ (['0', 'O', '1', 'I'] : List Char) := by decide
  unfold charFromByte
  rw [hlen]
  exact hball (b % 32) (Nat.mod_lt _ (by decide))

theorem generateRandomString_length (len : Nat) (bytes : Nat → Nat) :
    (generateRandomString len bytes).length = len := by
  simp [generateRandomString, String.length]

theorem generateRandomString_chars (len : Nat) (bytes : Nat → Nat) :
    ∀ c ∈ (generateRandomString len bytes).toList,
      c ∈ CHARSET.toList ∧ c ∉ (['0', 'O', '1', 'I'] : List Char) := by
  intro c hc
  simp only [generateRandomString, String.toList, String.mk, List.mem_map] at hc
  obtain ⟨i, _, hci⟩ := hc
  exact hci ▸ ⟨charFromByte_mem (bytes i), charFromByte_not_confusing (bytes i)⟩

theorem generateSessionIdAux_spec (store : Store) (rng : Nat → Nat → Nat) :
    ∀ fuel k sid, generateSessionIdAux store rng k fuel = some sid →
      getSession store sid = none ∧
      ∃ j, sid = generateRandomString SESSION_ID_LENGTH (rng j) := by
  intro fuel
  induction fuel with
  | zero => intro k sid h; simp [generateSessionIdAux] at h
  | succ n ih =>
    intro k sid h
    rw [generateSessionIdAux] at h
    by_cases hin :
        (getSession store (generateRandomString SESSION_ID_LENGTH (rng k))).isSome
    · rw [if_pos hin] at h
      exact ih (k + 1) sid h
    · rw [if_neg hin] at h
      have hid : generateRandomString SESSION_ID_LENGTH (rng k) = sid :=
        Option.some.inj h
      subst hid
      refine ⟨?_, k, rfl⟩
      cases hg : getSession store (generateRandomString SESSION_ID_LENGTH (rng k)) with
      | none => rfl
      | some s => rw [hg] at hin; simp at hin

theorem getSession_append_of_none (store : Store) (sid : String) (s : Session)
    (h : getSession store sid = none) :
    getSession (store ++ [(sid, s)]) sid = some s := by
  induction store with
  | nil => simp [getSession, List.find?]
  | cons p rest ih =>
    by_cases hp : (p.1 == sid) = true
    · rw [getSession_cons_eq p rest sid hp] at h
      exact absurd h (by simp)
    · have hp' : (p.1 == sid) = false := by simpa using hp
      rw [getSession_cons_ne p rest sid hp'] at h
      rw [List.cons_append, getSession_cons_ne p _ sid hp']
      exact ih h

theorem getSession_eq_none_keys (store : Store) (sid : String)
    (h : getSession store sid = none) : ∀ p ∈ store, p.1 ≠ sid := by
  intro p hp
  have hf : store.find? (fun q => q.1 == sid) = none := by
    cases hf2 : store.find? (fun q => q.1 == sid) with
    | none => rfl
    | some x => rw [getSession, hf2] at h; exact absurd h (by simp)
  have := List.find?_eq_none.mp hf p hp
  simpa using this

/-- Claim C8: session creation is capacity-gated by the caller (`POST
/session` answers `503` without creating anything when `isAtCapacity`), and
every successful `createSession` call returns a record that is `pending`,
expires in 5 minutes, has no attachments, is unlocked, has a 4-character id
and a 16-character secret over `ABCDEFGHJKLMNPQRSTUVWXYZ23456789` (hence no
character among `0,O,1,I`), whose id is distinct from every id in the store,
and which is inserted into the store under that id. -/
theorem claim_C8_createSession_wellformed (store : Store) (rng : Nat → Nat → Nat)
    (secretBytes : Nat → Nat) (fuel : Nat) (now : Nat)
    (metadata : Option DAppMetadata) :
    (∀ rl req, isAtCapacity store = true →
      postSession store rl req now rng secretBytes fuel =
        some (.serverAtCapacity, store, rl)) ∧
    (∀ s store', createSession store rng secretBytes fuel now metadata =
        some (s, store') →
      s.status = .pending ∧ s.createdAt = now ∧ s.expiresAt = now + 5 * 60 * 1000 ∧
      s.dapp = none ∧ s.mobile = none ∧ s.mobileLocked = false ∧
      s.id.length = 4 ∧ s.secret.length = 16 ∧
      (∀ c ∈ s.id.toList, c ∈ CHARSET.toList ∧ c ∉ (['0', 'O', '1', 'I'] : List Char)) ∧
      (∀ c ∈ s.secret.toList,
        c ∈ CHARSET.toList ∧ c ∉ (['0', 'O', '1', 'I'] : List Char)) ∧
      getSession store s.id = none ∧ (∀ p ∈ store, p.1 ≠ s.id) ∧
      store' = store ++ [(s.id, s)] ∧ getSession store' s.id = some s) := by
  constructor
  · intro rl req hcap
    simp [postSession, hcap]
  · intro s store' h
    cases hg : generateSessionId store rng fuel with
    | none => rw [createSession, hg] at h; exact absurd h (by simp)
    | some newId =>
      rw [createSession, hg] at h
      simp only [Option.some.injEq, Prod.mk.injEq] at h
      obtain ⟨hs, hstore⟩ := h
      obtain ⟨hfresh, j, hid⟩ :=
        generateSessionIdAux_spec store rng fuel 0 newId hg
      subst hs
      refine ⟨rfl, rfl, rfl, rfl, rfl, rfl, ?_, ?_, ?_, ?_, ?_, ?_, ?_, ?_⟩
      · rw [hid]; exact generateRandomString_length _ _
      · exact generateRandomString_length _ _
      · rw [hid]; exact generateRandomString_chars _ _
      · exact generateRandomString_chars _ _
      · exact hfresh
      · exact getSession_eq_none_keys store newId hfresh
      · exact hstore.symm
      · rw [← hstore]
        exact getSession_append_of_none store newId _ hfresh

/-- Witness for C8: `createSession` on the empty store with the zero byte
tape yields exactly `zeroTapeSession`, which the theorem certifies to be
pending, fresh and alphabet-legal. -/
theorem claim_C8_witness :
    createSession [] (fun _ _ => 0) (fun _ => 0) 1 0 none =
      some (zeroTapeSession, [("AAAA", zeroTapeSession)]) ∧
    zeroTapeSession.status = .pending ∧ zeroTapeSession.id.length = 4 ∧
    zeroTapeSession.secret.length = 16 ∧
    getSession [("AAAA", zeroTapeSession)] zeroTapeSession.id =
      some zeroTapeSession := by
  have h : createSession [] (fun _ _ => 0) (fun _ => 0) 1 0 none =
      some (zeroTapeSession, [("AAAA", zeroTapeSession)]) := by decide
  have hc := (claim_C8_createSession_wellformed [] (fun _ _ => 0) (fun _ => 0)
    1 0 none).2 zeroTapeSession [("AAAA", zeroTapeSession)] h
  exact ⟨h, hc.1, hc.2.2.2.2.2.2.1, hc.2.2.2.2.2.2.2.1,
    hc.2.2.2.2.2.2.2.2.2.2.2.2.2⟩

/-! ### C2 — `mobileLocked == (mobile != null)` is an invariant -/

theorem getSession_some_val_mem (store : Store) (sid : String) (s : Session)
    (h : getSession store sid = some s) : ∃ p ∈ store, p.2 = s := by
  rw [getSession] at h
  cases hf : store.find? (fun p => p.1 == sid) with
  | none => rw [hf] at h; exact absurd h (by simp)
  | some x =>
    rw [hf] at h
    exact ⟨x, List.mem_of_find?_eq_some hf, by simpa using h⟩

theorem storeInv_updateSession (store : Store) (sid : String) (f : Session → Session)
    (h : storeInv store)
    (hf : ∀ s, s.mobileLocked = s.mobile.isSome →
      (f s).mobileLocked = (f s).mobile.isSome) :
    storeInv (updateSession store sid f) := by
  intro p' hp'
  rw [updateSession, List.mem_map] at hp'
  obtain ⟨p, hp, hpe⟩ := hp'
  by_cases hb : (p.1 == sid) = true
  · rw [if_pos hb] at hpe
    rw [← hpe]
    exact hf p.2 (h p hp)
  · rw [if_neg hb] at hpe
    rw [← hpe]
    exact h p hp


theorem connectIfBoth_mobile (s : Session) (now : Nat) :
    (connectIfBoth s now).mobile = s.mobile := by
  rw [connectIfBoth]; split <;> rfl

theorem connectIfBoth_mobileLocked (s : Session) (now : Nat) :
    (connectIfBoth s now).mobileLocked = s.mobileLocked := by
  rw [connectIfBoth]; split <;> rfl

theorem connectIfBoth_dapp (s : Session) (now : Nat) :
    (connectIfBoth s now).dapp = s.dapp := by
  rw [connectIfBoth]; split <;> rfl

theorem connectIfBoth_terminated (s : Session) (now : Nat) :
    (connectIfBoth s now).terminated = s.terminated := by
  rw [connectIfBoth]; split <;> rfl

theorem registerConnection_unknown (store : Store) (sid : String) (role : Role)
    (conn : Conn) (now : Nat) (h : getSession store sid = none) :
    registerConnection store sid role conn now = (none, store) := by
  rw [registerConnection, h]

theorem registerConnection_dapp_eq (store : Store) (sid : String) (conn : Conn)
    (now : Nat) (session : Session) (h : getSession store sid = some session) :
    registerConnection store sid .dapp conn now =
      (some (connectIfBoth { session with dapp := some conn } now),
       updateSession store sid
         (fun _ => connectIfBoth { session with dapp := some conn } now)) := by
  rw [registerConnection, h]

theorem registerConnection_mobile_locked (store : Store) (sid : String)
    (conn : Conn) (now : Nat) (session : Session)
    (h : getSession store sid = some session)
    (hl : (session.mobileLocked && session.mobile.isSome) = true) :
    registerConnection store sid .mobile conn now = (none, store) := by
  simp [registerConnection, h, hl]

theorem registerConnection_mobile_free (store : Store) (sid : String)
    (conn : Conn) (now : Nat) (session : Session)
    (h : getSession store sid = some session)
    (hl : (session.mobileLocked && session.mobile.isSome) = false) :
    registerConnection store sid .mobile conn now =
      (some (connectIfBoth
          { session with mobile := some conn, mobileLocked := true } now),
       updateSession store sid (fun _ => connectIfBoth
          { session with mobile := some conn, mobileLocked := true } now)) := by
  simp [registerConnection, h, hl]

theorem storeInv_registerConnection (store : Store) (sid : String) (role : Role)
    (conn : Conn) (now : Nat) (h : storeInv store) :
    storeInv (registerConnection store sid role conn now).2 := by
  cases hget : getSession store sid with
  | none => rw [registerConnection_unknown store sid role conn now hget]; exact h
  | some session =>
    obtain ⟨p, hp, hpe⟩ := getSession_some_val_mem store sid session hget
    have hsess : session.mobileLocked = session.mobile.isSome := hpe ▸ h p hp
    cases role with
    | dapp =>
      rw [registerConnection_dapp_eq store sid conn now session hget]
      refine storeInv_updateSession store sid
        (fun _ => connectIfBoth { session with dapp := some conn } now) h
        (fun s _ => ?_)
      rw [connectIfBoth_mobileLocked, connectIfBoth_mobile]
      exact hsess
    | mobile =>
      cases hl : (session.mobileLocked && session.mobile.isSome) with
      | true =>
        rw [registerConnection_mobile_locked store sid conn now session hget hl]
        exact h
      | false =>
        rw [registerConnection_mobile_free store sid conn now session hget hl]
        refine storeInv_updateSession store sid
          (fun _ => connectIfBoth
            { session with mobile := some conn, mobileLocked := true } now) h
          (fun s _ => ?_)
        rw [connectIfBoth_mobileLocked, connectIfBoth_mobile]
        rfl

theorem storeInv_unregisterConnection (store : Store) (sid : String) (role : Role)
    (h : storeInv store) : storeInv (unregisterConnection store sid role) := by
  rw [unregisterConnection]
  cases hget : getSession store sid with
  | none => exact h
  | some session =>
    refine storeInv_updateSession store sid
      (fun s => match role with
        | Role.dapp => { s with dapp := none, status := .disconnected }
        | Role.mobile => { s with mobile := none, mobileLocked := false, status := .disconnected })
      h (fun s hs => ?_)
    cases role with
    | dapp => exact hs
    | mobile => rfl

theorem storeInv_terminateSession (store : Store) (sid : String)
    (h : storeInv store) : storeInv (terminateSession store sid).1 := by
  rw [terminateSession]
  cases hget : getSession store sid with
  | none => exact h
  | some session =>
    exact storeInv_updateSession store sid
      (fun s0 => { s0 with terminated := true, status := .disconnected })
      h (fun s hs => hs)

theorem storeInv_createSession (store : Store) (rng : Nat → Nat → Nat)
    (secretBytes : Nat → Nat) (fuel now : Nat) (md : Option DAppMetadata)
    (h : storeInv store) :
    storeInv (match createSession store rng secretBytes fuel now md with
      | some (_, st) => st
      | none => store) := by
  cases hc : createSession store rng secretBytes fuel now md with
  | none => exact h
  | some pr =>
    obtain ⟨s, st⟩ := pr
    have hall := (claim_C8_createSession_wellformed store rng secretBytes fuel
      now md).2 s st hc
    have hst : st = store ++ [(s.id, s)] := hall.2.2.2.2.2.2.2.2.2.2.2.2.1
    intro p hp
    rw [hst] at hp
    rcases List.mem_append.mp hp with hmem | hmem
    · exact h p hmem
    · have hps : p = (s.id, s) := by simpa using hmem
      rw [hps]
      have hm : s.mobile = none := hall.2.2.2.2.1
      have hl : s.mobileLocked = false := hall.2.2.2.2.2.1
      show s.mobileLocked = s.mobile.isSome
      rw [hm, hl]
      rfl

theorem storeInv_filter (store : Store) (f : String × Session → Bool)
    (h : storeInv store) : storeInv (store.filter f) := by
  intro p hp
  exact h p (List.mem_filter.mp hp).1

theorem storeInv_applyOp (store : Store) (op : StoreOp) (h : storeInv store) :
    storeInv (applyOp registerConnection store op) := by
  cases op with
  | register sid role conn now => exact storeInv_registerConnection _ _ _ _ _ h
  | unregister sid role => exact storeInv_unregisterConnection _ _ _ h
  | terminate sid => exact storeInv_terminateSession _ _ h
  | create rng sb fuel now md => exact storeInv_createSession _ _ _ _ _ _ h
  | delete sid => exact storeInv_filter _ _ h
  | peek sid role => exact h
  | cleanup now => exact storeInv_filter _ _ h

theorem storeInv_applyOps (store : Store) (ops : List StoreOp) (h : storeInv store) :
    storeInv (applyOps registerConnection store ops) := by
  induction ops generalizing store with
  | nil => exact h
  | cons op rest ih => exact ih _ (storeInv_applyOp store op h)

/-- Claim C2: along every sequence of store operations (starting from the
empty store) every record satisfies `mobileLocked = (mobile != null)` in
every quiescent state; in particular a successful `mobile`
`registerConnection` sets `mobile` and `mobileLocked` together, and a
`mobile` `unregisterConnection` clears both together. -/
theorem claim_C2_mobileLocked_invariant :
    (∀ ops : List StoreOp, ∀ p ∈ applyOps registerConnection [] ops,
      p.2.mobileLocked = p.2.mobile.isSome) ∧
    (∀ store sid conn now s store',
      registerConnection store sid .mobile conn now = (some s, store') →
      s.mobile = some conn ∧ s.mobileLocked = true) ∧
    (∀ store sid s',
      getSession (unregisterConnection store sid .mobile) sid = some s' →
      s'.mobile = none ∧ s'.mobileLocked = false) := by
  refine ⟨?_, ?_, ?_⟩
  · intro ops
    exact storeInv_applyOps [] ops (by intro p hp; exact absurd hp (by simp))
  · intro store sid conn now s store' h
    cases hget : getSession store sid with
    | none =>
      rw [registerConnection_unknown store sid .mobile conn now hget] at h
      exact absurd h (by simp)
    | some session =>
      cases hl : (session.mobileLocked && session.mobile.isSome) with
      | true =>
        rw [registerConnection_mobile_locked store sid conn now session hget hl] at h
        exact absurd h (by simp)
      | false =>
        rw [registerConnection_mobile_free store sid conn now session hget hl] at h
        have hs : s = connectIfBoth
            { session with mobile := some conn, mobileLocked := true } now := by
          have := congrArg Prod.fst h
          simpa using this.symm
        rw [hs, connectIfBoth_mobile, connectIfBoth_mobileLocked]
        exact ⟨rfl, rfl⟩
  · intro store sid s' h
    rw [unregisterConnection] at h
    cases hget : getSession store sid with
    | none => rw [hget] at h; exact absurd h (by simp [hget])
    | some session =>
      rw [hget, getSession_updateSession_self store sid _ session hget] at h
      have := Option.some.inj h
      rw [← this]
      exact ⟨rfl, rfl⟩

/-- Witness for C2: a create followed by a mobile attach on handle `5`
reaches a store whose single record is locked with `mobile = some 5`; the
register and unregister conjuncts are applied at concrete stores. -/
theorem claim_C2_witness :
    (∀ p ∈ applyOps registerConnection []
        [.create (fun _ _ => 0) (fun _ => 0) 1 0 none, .register "AAAA" .mobile 5 0],
      p.2.mobileLocked = p.2.mobile.isSome) ∧
    (sampleWithMobile.mobile = some 5 ∧ sampleWithMobile.mobileLocked = true) ∧
    (({ sampleSession with mobile := none, mobileLocked := false, status := SessionStatus.disconnected } : Session).mobile = none ∧
     ({ sampleSession with mobile := none, mobileLocked := false, status := SessionStatus.disconnected } : Session).mobileLocked = false) := by
  refine ⟨claim_C2_mobileLocked_invariant.1 _, ?_, ?_⟩
  · exact claim_C2_mobileLocked_invariant.2.1 [("AAAA", sampleSession)] "AAAA" 5 0
      sampleWithMobile [("AAAA", sampleWithMobile)] (by decide)
  · exact claim_C2_mobileLocked_invariant.2.2 [("AAAA", sampleWithMobile)] "AAAA"
      { sampleSession with mobile := none, mobileLocked := false, status := SessionStatus.disconnected } (by decide)

/-! ### C1 — a terminated session accepts no further attachments -/

theorem terminateSession_fst_known (store : Store) (sid : String) (s : Session)
    (h : getSession store sid = some s) :
    (terminateSession store sid).1 =
      updateSession store sid
        (fun s0 => { s0 with terminated := true, status := .disconnected }) := by
  rw [terminateSession, h]

theorem terminateSession_fst_unknown (store : Store) (sid : String)
    (h : getSession store sid = none) : (terminateSession store sid).1 = store := by
  rw [terminateSession, h]

theorem unregisterConnection_known (store : Store) (sid : String) (role : Role)
    (s : Session) (h : getSession store sid = some s) :
    unregisterConnection store sid role =
      updateSession store sid (fun s0 =>
        match role with
        | Role.dapp => { s0 with dapp := none, status := .disconnected }
        | Role.mobile => { s0 with mobile := none, mobileLocked := false, status := .disconnected }) := by
  rw [unregisterConnection, h]

theorem unregisterConnection_unknown (store : Store) (sid : String) (role : Role)
    (h : getSession store sid = none) :
    unregisterConnection store sid role = store := by
  rw [unregisterConnection, h]

theorem registerConnectionT_terminated (store : Store) (sid : String) (role : Role)
    (conn : Conn) (now : Nat) (s : Session) (hget : getSession store sid = some s)
    (ht : s.terminated = true) :
    registerConnectionT store sid role conn now = (none, store) := by
  rw [registerConnectionT, hget]
  simp [ht]

theorem registerConnection_snd_preserves_ne (store : Store) (sid' : String)
    (role : Role) (conn : Conn) (now : Nat) (sid : String) (h : sid ≠ sid') :
    getSession (registerConnection store sid' role conn now).2 sid =
      getSession store sid := by
  cases hget : getSession store sid' with
  | none => rw [registerConnection_unknown store sid' role conn now hget]
  | some session =>
    cases role with
    | dapp =>
      rw [registerConnection_dapp_eq store sid' conn now session hget]
      exact getSession_updateSession_ne store sid' sid
        (fun _ => connectIfBoth { session with dapp := some conn } now) h
    | mobile =>
      cases hl : (session.mobileLocked && session.mobile.isSome) with
      | true => rw [registerConnection_mobile_locked store sid' conn now session hget hl]
      | false =>
        rw [registerConnection_mobile_free store sid' conn now session hget hl]
        exact getSession_updateSession_ne store sid' sid
          (fun _ => connectIfBoth
            { session with mobile := some conn, mobileLocked := true } now) h

theorem registerConnectionT_snd_preserves_ne (store : Store) (sid' : String)
    (role : Role) (conn : Conn) (now : Nat) (sid : String) (h : sid ≠ sid') :
    getSession (registerConnectionT store sid' role conn now).2 sid =
      getSession store sid := by
  rw [registerConnectionT]
  cases hget : getSession store sid' with
  | none => rfl
  | some session =>
    cases ht : session.terminated with
    | true => simp [ht]
    | false =>
      simp only [ht, Bool.false_eq_true, if_false]
      exact registerConnection_snd_preserves_ne store sid' role conn now sid h

theorem getSession_append_left (store : Store) (l : Store) (sid : String)
    (s : Session) (h : getSession store sid = some s) :
    getSession (store ++ l) sid = some s := by
  induction store with
  | nil => exact absurd h (by simp [getSession])
  | cons p rest ih =>
    by_cases hp : (p.1 == sid) = true
    · rw [getSession_cons_eq p rest sid hp] at h
      rw [List.cons_append, getSession_cons_eq p _ sid hp]
      exact h
    · have hp' : (p.1 == sid) = false := by simpa using hp
      rw [getSession_cons_ne p rest sid hp'] at h
      rw [List.cons_append, getSession_cons_ne p _ sid hp']
      exact ih h

theorem getSession_deleteSession_ne (store : Store) (sid sid' : String)
    (h : sid ≠ sid') :
    getSession (deleteSession store sid') sid = getSession store sid := by
  induction store with
  | nil => rfl
  | cons p rest ih =>
    by_cases hd : (p.1 == sid') = true
    · have hps : p.1 = sid' := by simpa using hd
      have hq : (p.1 == sid) = false := by
        simp only [beq_eq_false_iff_ne, ne_eq, hps]
        exact fun hh => h hh.symm
      rw [getSession_cons_ne p rest sid hq]
      show getSession (List.filter _ (p :: rest)) sid = getSession rest sid
      rw [List.filter_cons]
      simp only [hd, Bool.not_true]
      exact ih
    · have hd' : (p.1 == sid') = false := by simpa using hd
      show getSession (List.filter _ (p :: rest)) sid = getSession (p :: rest) sid
      rw [List.filter_cons]
      simp only [hd', Bool.not_false, if_true]
      by_cases hq : (p.1 == sid) = true
      · rw [getSession_cons_eq p _ sid hq, getSession_cons_eq p rest sid hq]
      · have hq' : (p.1 == sid) = false := by simpa using hq
        rw [getSession_cons_ne p _ sid hq', getSession_cons_ne p rest sid hq']
        exact ih

theorem terminatedAt_applyOp (store : Store) (sid : String) (op : StoreOp)
    (hsafe : opSafeFor sid op) (h : terminatedAt store sid) :
    terminatedAt (applyOp registerConnectionT store op) sid := by
  obtain ⟨s, hget, ht⟩ := h
  cases op with
  | register sid' role conn now =>
    show terminatedAt (registerConnectionT store sid' role conn now).2 sid
    by_cases he : sid = sid'
    · subst he
      rw [registerConnectionT_terminated store sid role conn now s hget ht]
      exact ⟨s, hget, ht⟩
    · refine ⟨s, ?_, ht⟩
      rw [registerConnectionT_snd_preserves_ne store sid' role conn now sid he]
      exact hget
  | unregister sid' role =>
    show terminatedAt (unregisterConnection store sid' role) sid
    by_cases he : sid = sid'
    · subst he
      rw [unregisterConnection_known store sid role s hget]
      refine ⟨_, getSession_updateSession_self store sid _ s hget, ?_⟩
      cases role with
      | dapp => exact ht
      | mobile => exact ht
    · cases hget' : getSession store sid' with
      | none =>
        rw [unregisterConnection_unknown store sid' role hget']
        exact ⟨s, hget, ht⟩
      | some s' =>
        rw [unregisterConnection_known store sid' role s' hget']
        refine ⟨s, ?_, ht⟩
        rw [getSession_updateSession_ne store sid' sid _ he]
        exact hget
  | terminate sid' =>
    show terminatedAt (terminateSession store sid').1 sid
    by_cases he : sid = sid'
    · subst he
      rw [terminateSession_fst_known store sid s hget]
      exact ⟨_, getSession_updateSession_self store sid _ s hget, rfl⟩
    · cases hget' : getSession store sid' with
      | none =>
        rw [terminateSession_fst_unknown store sid' hget']
        exact ⟨s, hget, ht⟩
      | some s' =>
        rw [terminateSession_fst_known store sid' s' hget']
        refine ⟨s, ?_, ht⟩
        rw [getSession_updateSession_ne store sid' sid _ he]
        exact hget
  | create rng sb fuel now md =>
    show terminatedAt (match createSession store rng sb fuel now md with
      | some (_, st) => st
      | none => store) sid
    cases hc : createSession store rng sb fuel now md with
    | none => exact ⟨s, hget, ht⟩
    | some pr =>
      obtain ⟨ns, nst⟩ := pr
      have hall := (claim_C8_createSession_wellformed store rng sb fuel
        now md).2 ns nst hc
      have hst : nst = store ++ [(ns.id, ns)] := hall.2.2.2.2.2.2.2.2.2.2.2.2.1
      show terminatedAt nst sid
      rw [hst]
      exact ⟨s, getSession_append_left store _ sid s hget, ht⟩
  | delete sid' =>
    show terminatedAt (deleteSession store sid') sid
    refine ⟨s, ?_, ht⟩
    rw [getSession_deleteSession_ne store sid sid' (fun hh => hsafe hh.symm)]
    exact hget
  | peek sid' role => exact ⟨s, hget, ht⟩
  | cleanup now => exact hsafe.elim

theorem terminatedAt_applyOps (store : Store) (sid : String) (ops : List StoreOp)
    (hsafe : ∀ op ∈ ops, opSafeFor sid op) (h : terminatedAt store sid) :
    terminatedAt (applyOps registerConnectionT store ops) sid := by
  induction ops generalizing store with
  | nil => exact h
  | cons op rest ih =>
    exact ih _ (fun o ho => hsafe o (List.mem_cons_of_mem op ho))
      (terminatedAt_applyOp store sid op (hsafe op (List.mem_cons_self op rest)) h)

theorem registerConnectionT_of_terminatedAt (store : Store) (sid : String)
    (role : Role) (conn : Conn) (now : Nat) (h : terminatedAt store sid) :
    registerConnectionT store sid role conn now = (none, store) := by
  obtain ⟨s, hget, ht⟩ := h
  exact registerConnectionT_terminated store sid role conn now s hget ht

/-- Claim C1: once `terminateSession(sid)` has run on an existing session,
every subsequent `registerConnection(sid, …)` — after any interleaving of
further store operations that do not remove the record (`delete sid` or the
sweeper) — returns `none` for either role and any connection, and leaves the
store exactly as it was (attaches nothing). -/
theorem claim_C1_terminate_blocks_register (store : Store) (sid : String)
    (ops : List StoreOp) (role : Role) (conn : Conn) (now : Nat)
    (hs : (getSession store sid).isSome = true)
    (hops : ∀ op ∈ ops, opSafeFor sid op) :
    registerConnectionT
        (applyOps registerConnectionT (terminateSession store sid).1 ops)
        sid role conn now =
      (none, applyOps registerConnectionT (terminateSession store sid).1 ops) := by
  obtain ⟨s, hget⟩ := Option.isSome_iff_exists.mp hs
  have h0 : terminatedAt (terminateSession store sid).1 sid := by
    rw [terminateSession_fst_known store sid s hget]
    exact ⟨_, getSession_updateSession_self store sid _ s hget, rfl⟩
  exact registerConnectionT_of_terminatedAt _ sid role conn now
    (terminatedAt_applyOps _ sid ops hops h0)

/-- Witness for C1: terminating the sample session and then (after a DApp
attach of handle `7` intervenes) registering either role returns `none` and
changes nothing. -/
theorem claim_C1_witness :
    registerConnectionT
        (applyOps registerConnectionT
          (terminateSession [("AAAA", sampleSession)] "AAAA").1
          [.register "AAAA" .dapp 7 0])
        "AAAA" .mobile 5 1 =
      (none, applyOps registerConnectionT
        (terminateSession [("AAAA", sampleSession)] "AAAA").1
        [.register "AAAA" .dapp 7 0]) :=
  claim_C1_terminate_blocks_register [("AAAA", sampleSession)] "AAAA"
    [.register "AAAA" .dapp 7 0] .mobile 5 1 (by decide)
    (by
      intro op hop
      rw [List.mem_singleton] at hop
      subst hop
      exact trivial)

/-! ### C9 — `ready` first, then `dapp_reconnected`, before any forward -/

theorem runCmds_cons (st : Store) (d : WsCmd) (ds : List WsCmd) :
    runCmds st (d :: ds) =
      ((runCmds (wsStep st d).1 ds).1,
       (wsStep st d).2 ++ (runCmds (wsStep st d).1 ds).2) := rfl

theorem runCmds_append (store : Store) (a b : List WsCmd) :
    runCmds store (a ++ b) =
      ((runCmds (runCmds store a).1 b).1,
       (runCmds store a).2 ++ (runCmds (runCmds store a).1 b).2) := by
  induction a generalizing store with
  | nil => simp [runCmds]
  | cons c cs ih =>
    rw [List.cons_append, runCmds_cons store c (cs ++ b), ih (wsStep store c).1,
      runCmds_cons store c cs]
    simp [List.append_assoc]

theorem wsOpen_success_events (store : Store) (sid : String) (role : Role)
    (conn : Conn) (now : Nat) (session : Session) (st : Store)
    (h : registerConnection store sid role conn now = (some session, st)) :
    wsOpen store sid role conn now =
      (st, .send conn readyMsg ::
        (match role, getPeer store sid role with
         | .dapp, some p => [.send p dappReconnectedMsg]
         | _, _ => [])) := by
  unfold wsOpen
  rw [h]

/-- Claim C9: on a successful attach the open handler's very first emitted
event is `{"type":"ready"}` to the newly attached connection — in the full
trace of any command sequence, every event of a later handler invocation
(in particular every forwarded frame) comes after it — and when a DApp
(re)attaches while a Mobile peer is present, the open handler's events are
exactly `ready` to the DApp followed by `{"type":"dapp_reconnected"}` to
that Mobile, so both precede every later forwarded frame. -/
theorem claim_C9_ready_first (store : Store) (pre post : List WsCmd)
    (sid : String) (role : Role) (conn : Conn) (now : Nat)
    (st1 : Store) (e1 : List WsEvent) (hpre : runCmds store pre = (st1, e1))
    (session : Session) (st2 : Store)
    (hreg : registerConnection st1 sid role conn now = (some session, st2)) :
    (runCmds store (pre ++ .openWs sid role conn now :: post)).2 =
      e1 ++ (wsOpen st1 sid role conn now).2 ++
        (runCmds (wsOpen st1 sid role conn now).1 post).2 ∧
    (wsOpen st1 sid role conn now).2.head? = some (.send conn readyMsg) ∧
    (∀ p, role = .dapp → getPeer st1 sid .dapp = some p →
      (wsOpen st1 sid role conn now).2 =
        [.send conn readyMsg, .send p dappReconnectedMsg]) := by
  refine ⟨?_, ?_, ?_⟩
  · rw [runCmds_append, hpre]
    show e1 ++ (runCmds st1 (WsCmd.openWs sid role conn now :: post)).2 = _
    rw [runCmds_cons]
    show e1 ++ ((wsOpen st1 sid role conn now).2 ++ _) = _
    rw [List.append_assoc]
    rfl
  · rw [wsOpen_success_events st1 sid role conn now session st2 hreg]
    rfl
  · intro p hrole hpeer
    subst hrole
    rw [wsOpen_success_events st1 sid .dapp conn now session st2 hreg, hpeer]

/-- Witness for C9: opening as DApp on a session whose Mobile (handle `5`)
is attached emits exactly `ready` to the DApp (handle `7`) and then
`dapp_reconnected` to the Mobile. -/
theorem claim_C9_witness :
    (wsOpen [("AAAA", sampleWithMobile)] "AAAA" .dapp 7 0).2 =
      [.send 7 readyMsg, .send 5 dappReconnectedMsg] :=
  (claim_C9_ready_first [("AAAA", sampleWithMobile)] [] [] "AAAA" .dapp 7 0
    [("AAAA", sampleWithMobile)] [] rfl sampleConnected
    [("AAAA", sampleConnected)] (by decide)).2.2 5 rfl (by decide)

/-! ### C5 — `POST /session` admission order -/

/-- Claim C5: `POST /session` checks capacity first (503, limiter untouched,
nothing created), then the per-IP rate limit (429 with
`Retry-After = ceil((resetAt - now)/1000)` and `X-RateLimit-Remaining` from
`getInfo`, nothing created), and otherwise creates a session and returns
`{id, url, expiresAt}` with
`url = <proto>://<host>/s/<id>?k=<secret>`, `<proto>` the
`X-Forwarded-Proto` header or `http`, `<host>` the `Host` header (with the
configured fallback when absent). -/
theorem claim_C5_postSession_admission (store : Store) (rl : RateLimiter)
    (req : HttpRequest) (now : Nat) (rng : Nat → Nat → Nat)
    (secretBytes : Nat → Nat) (fuel : Nat) :
    (isAtCapacity store = true →
      postSession store rl req now rng secretBytes fuel =
        some (.serverAtCapacity, store, rl)) ∧
    (isAtCapacity store = false →
      (rl.check (getClientIP req) now).1 = false →
      postSession store rl req now rng secretBytes fuel =
        some (.rateLimited
            ((((rl.check (getClientIP req) now).2.getInfo (getClientIP req)
                now).resetAt - now + 999) / 1000)
            (((rl.check (getClientIP req) now).2.getInfo (getClientIP req)
                now).remaining),
          store, (rl.check (getClientIP req) now).2)) ∧
    (isAtCapacity store = false →
      (rl.check (getClientIP req) now).1 = true →
      ∀ s store',
        createSession store rng secretBytes fuel now (postMetadata req) =
          some (s, store') →
        postSession store rl req now rng secretBytes fuel =
          some (.created s.id
              (jsOr req.xForwardedProto "http" ++ "://" ++
                jsOr req.host (HOST ++ ":" ++ toString PORT) ++ "/s/" ++
                s.id ++ "?k=" ++ s.secret)
              s.expiresAt,
            store', (rl.check (getClientIP req) now).2)) := by
  refine ⟨?_, ?_, ?_⟩
  · intro hcap
    simp [postSession, hcap]
  · intro hcap hrl
    simp [postSession, hcap, hrl]
  · intro hcap hrl s store' hcreate
    simp [postSession, hcap, hrl, hcreate]

/-- Witness for C5: at capacity the reply is 503 with both states unchanged;
rate-limited at `now = 100` the reply is 429 with `Retry-After = 50` and
zero remaining, creating nothing; otherwise a session is created and the
link embeds proto, host, id and secret. -/
theorem claim_C5_witness :
    postSession fullStore freshLimiter sampleRequest 100 (fun _ _ => 0)
        (fun _ => 0) 1 =
      some (.serverAtCapacity, fullStore, freshLimiter) ∧
    postSession [] exhaustedLimiter sampleRequest 100 (fun _ _ => 0)
        (fun _ => 0) 1 =
      some (.rateLimited 50 0, [], exhaustedLimiter) ∧
    postSession [] freshLimiter sampleRequest 0 (fun _ _ => 0) (fun _ => 0) 1 =
      some (.created "AAAA" "https://relay.example/s/AAAA?k=AAAAAAAAAAAAAAAA"
          300000,
        [("AAAA", zeroTapeSession)],
        { config := { windowMs := 60000, maxRequests := 10 }
          entries := [("unknown", { count := 1, resetAt := 60000 })] }) := by
  refine ⟨?_, ?_, ?_⟩
  · have hlen : fullStore.length = 10000 := by
      show (List.replicate 10000 ("AAAA", sampleSession)).length = 10000
      exact List.length_replicate 10000 _
    exact (claim_C5_postSession_admission fullStore freshLimiter sampleRequest
      100 (fun _ _ => 0) (fun _ => 0) 1).1 (by rw [isAtCapacity, hlen]; rfl)
  · have := (claim_C5_postSession_admission [] exhaustedLimiter sampleRequest
      100 (fun _ _ => 0) (fun _ => 0) 1).2.1 (by decide) (by decide)
    exact this
  · have := (claim_C5_postSession_admission [] freshLimiter sampleRequest 0
      (fun _ _ => 0) (fun _ => 0) 1).2.2 (by decide) (by decide) zeroTapeSession
      [("AAAA", zeroTapeSession)] (by decide)
    exact this

/-! ### C6 — `RateLimiter.check` semantics and the per-window bound -/

theorem rlRun_cons (rl : RateLimiter) (key : String) (t : Nat) (ts : List Nat) :
    rlRun rl key (t :: ts) =
      ((rl.check key t).1 :: (rlRun (rl.check key t).2 key ts).1,
       (rlRun (rl.check key t).2 key ts).2) := rfl

theorem rlLookup_cons_eq (p : String × RateLimitEntry)
    (rest : List (String × RateLimitEntry)) (key : String)
    (hp : (p.1 == key) = true) : rlLookup (p :: rest) key = some p.2 := by
  simp [rlLookup, List.find?, hp]

theorem rlLookup_cons_ne (p : String × RateLimitEntry)
    (rest : List (String × RateLimitEntry)) (key : String)
    (hp : (p.1 == key) = false) : rlLookup (p :: rest) key = rlLookup rest key := by
  simp only [rlLookup, List.find?, hp]

theorem rlLookup_rlSet_self (entries : List (String × RateLimitEntry))
    (key : String) (e : RateLimitEntry) :
    rlLookup (rlSet entries key e) key = some e := by
  induction entries with
  | nil => simp [rlSet, rlLookup, List.find?]
  | cons p rest ih =>
    rw [rlSet]
    by_cases hp : (p.1 == key) = true
    · rw [if_pos hp]
      exact rlLookup_cons_eq (key, e) rest key (by simp)
    · have hp' : (p.1 == key) = false := by simpa using hp
      rw [if_neg hp, rlLookup_cons_ne p _ key hp']
      exact ih

theorem rlLookup_some_mem (entries : List (String × RateLimitEntry))
    (key : String) (e : RateLimitEntry) (h : rlLookup entries key = some e) :
    ∃ p ∈ entries, p.2 = e := by
  rw [rlLookup] at h
  cases hf : entries.find? (fun p => p.1 == key) with
  | none => rw [hf] at h; exact absurd h (by simp)
  | some x =>
    rw [hf] at h
    exact ⟨x, List.mem_of_find?_eq_some hf, by simpa using h⟩

theorem check_fresh (rl : RateLimiter) (key : String) (now : Nat)
    (h : rlLookup rl.entries key = none) :
    rl.check key now =
      (true, { rl with
        entries := rlSet rl.entries key ⟨1, now + rl.config.windowMs⟩ }) := by
  unfold RateLimiter.check
  rw [h]

theorem check_reset (rl : RateLimiter) (key : String) (now : Nat)
    (e : RateLimitEntry) (h : rlLookup rl.entries key = some e)
    (hn : now ≥ e.resetAt) :
    rl.check key now =
      (true, { rl with
        entries := rlSet rl.entries key ⟨1, now + rl.config.windowMs⟩ }) := by
  unfold RateLimiter.check
  simp only [h]
  rw [if_pos hn]

theorem check_reject (rl : RateLimiter) (key : String) (now : Nat)
    (e : RateLimitEntry) (h : rlLookup rl.entries key = some e)
    (hn : now < e.resetAt) (hc : e.count ≥ rl.config.maxRequests) :
    rl.check key now = (false, rl) := by
  unfold RateLimiter.check
  simp only [h]
  rw [if_neg (by omega), if_pos hc]

theorem check_increment (rl : RateLimiter) (key : String) (now : Nat)
    (e : RateLimitEntry) (h : rlLookup rl.entries key = some e)
    (hn : now < e.resetAt) (hc : e.count < rl.config.maxRequests) :
    rl.check key now =
      (true, { rl with
        entries := rlSet rl.entries key ⟨e.count + 1, e.resetAt⟩ }) := by
  unfold RateLimiter.check
  simp only [h]
  rw [if_neg (by omega), if_neg (by omega)]

theorem rlRun_count_le (key : String) :
    ∀ (ts : List Nat) (rl : RateLimiter) (c R : Nat),
      rlLookup rl.entries key = some ⟨c, R⟩ → (∀ t ∈ ts, t < R) →
      ((rlRun rl key ts).1.count true) ≤ rl.config.maxRequests - c := by
  intro ts
  induction ts with
  | nil => intro rl c R h ht; simp [rlRun]
  | cons t ts ih =>
    intro rl c R h ht
    have htR : t < R := ht t (List.mem_cons_self t ts)
    have hts : ∀ u ∈ ts, u < R := fun u hu => ht u (List.mem_cons_of_mem t hu)
    rw [rlRun_cons]
    by_cases hc : rl.config.maxRequests ≤ c
    · rw [check_reject rl key t ⟨c, R⟩ h htR hc]
      have hrec := ih rl c R h hts
      simpa using hrec
    · have hcc : c < rl.config.maxRequests := by omega
      rw [check_increment rl key t ⟨c, R⟩ h htR hcc]
      have hrec := ih
        { rl with entries := rlSet rl.entries key ⟨c + 1, R⟩ } (c + 1) R
        (rlLookup_rlSet_self rl.entries key ⟨c + 1, R⟩) hts
      simp only [List.count_cons, beq_self_eq_true, if_true] at *
      omega

/-- Claim C6 (amended): on a well-formed limiter state, `check(k)` returns
`true` and installs the fresh entry `{count: 1, resetAt: now + windowMs}`
iff there is no entry for `k` or `now ≥ resetAt`; otherwise it returns
`false` when `count ≥ maxRequests`, and otherwise increments the count and
returns `true`.  Consequently — provided `maxRequests ≥ 1` — starting a
window at `t0`, at most `maxRequests` of any calls made before
`t0 + windowMs` return `true`. -/
theorem claim_C6_check_amended (rl : RateLimiter) (key : String) (now : Nat) :
    (rlWF rl.entries →
      (((rl.check key now).1 = true ∧
        rlLookup (rl.check key now).2.entries key =
          some ⟨1, now + rl.config.windowMs⟩) ↔
       (rlLookup rl.entries key = none ∨
        ∃ e, rlLookup rl.entries key = some e ∧ now ≥ e.resetAt))) ∧
    (∀ e, rlLookup rl.entries key = some e → now < e.resetAt →
      e.count ≥ rl.config.maxRequests → rl.check key now = (false, rl)) ∧
    (∀ e, rlLookup rl.entries key = some e → now < e.resetAt →
      e.count < rl.config.maxRequests →
      (rl.check key now).1 = true ∧
      rlLookup (rl.check key now).2.entries key =
        some ⟨e.count + 1, e.resetAt⟩) ∧
    (∀ t0 ts, 1 ≤ rl.config.maxRequests → rlLookup rl.entries key = none →
      (∀ t ∈ ts, t < t0 + rl.config.windowMs) →
      ((rlRun rl key (t0 :: ts)).1.count true) ≤ rl.config.maxRequests) := by
  refine ⟨?_, ?_, ?_, ?_⟩
  · intro hwf
    constructor
    · rintro ⟨h1, h2⟩
      cases hl : rlLookup rl.entries key with
      | none => exact Or.inl rfl
      | some e =>
        by_cases hn : now ≥ e.resetAt
        · exact Or.inr ⟨e, rfl, hn⟩
        · exfalso
          have hnlt : now < e.resetAt := by omega
          by_cases hc : rl.config.maxRequests ≤ e.count
          · rw [check_reject rl key now e hl hnlt hc] at h1
            simp at h1
          · have hcc : e.count < rl.config.maxRequests := by omega
            rw [check_increment rl key now e hl hnlt hcc,
              rlLookup_rlSet_self] at h2
            have hinj := Option.some.inj h2
            obtain ⟨p, hpmem, hpe⟩ := rlLookup_some_mem rl.entries key e hl
            have hcnt : 1 ≤ e.count := hpe ▸ hwf p hpmem
            have : e.count + 1 = 1 := congrArg RateLimitEntry.count hinj
            omega
    · intro hd
      rcases hd with hnone | ⟨e, hl, hn⟩
      · rw [check_fresh rl key now hnone]
        exact ⟨rfl, rlLookup_rlSet_self _ _ _⟩
      · rw [check_reset rl key now e hl hn]
        exact ⟨rfl, rlLookup_rlSet_self _ _ _⟩
  · intro e hl hn hc
    exact check_reject rl key now e hl hn hc
  · intro e hl hn hc
    rw [check_increment rl key now e hl hn hc]
    exact ⟨rfl, rlLookup_rlSet_self _ _ _⟩
  · intro t0 ts hmax hnone hts
    rw [rlRun_cons, check_fresh rl key t0 hnone]
    have hrec := rlRun_count_le key ts
      { rl with entries := rlSet rl.entries key ⟨1, t0 + rl.config.windowMs⟩ } 1
      (t0 + rl.config.windowMs)
      (rlLookup_rlSet_self rl.entries key ⟨1, t0 + rl.config.windowMs⟩) hts
    simp only [List.count_cons, beq_self_eq_true, if_true] at *
    omega

/-- Counterexample for C6 as stated: the fresh-window branch of `check`
returns `true` without consulting `maxRequests`, so with
`maxRequests = 0` a single call at `t = 0` (trivially inside any window)
yields one `true`, exceeding the claimed bound of `maxRequests = 0`
accepted calls per window. -/
theorem claim_C6_counterexample :
    ((rlRun { config := { windowMs := 60000, maxRequests := 0 }, entries := [] } "k" [0]).1.count true) = 1 ∧
    ¬ (((rlRun { config := { windowMs := 60000, maxRequests := 0 }, entries := [] } "k" [0]).1.count true) ≤
        ({ windowMs := 60000, maxRequests := 0 } : RateLimiterConfig).maxRequests) := by
  decide

/-- Witness for C6: on the production configuration (`maxRequests = 10`), 11
calls inside one window yield exactly 10 accepted; the iff and the branch
cases are applied at concrete states. -/
theorem claim_C6_witness :
    ((freshLimiter.check "k" 5).1 = true ∧
      rlLookup (freshLimiter.check "k" 5).2.entries "k" =
        some ⟨1, 5 + freshLimiter.config.windowMs⟩) ∧
    exhaustedLimiter.check "unknown" 100 = (false, exhaustedLimiter) ∧
    ((rlRun freshLimiter "k" [0, 1, 2, 3, 4, 5, 6, 7, 8, 9, 10]).1.count true) ≤
      freshLimiter.config.maxRequests := by
  refine ⟨?_, ?_, ?_⟩
  · exact ((claim_C6_check_amended freshLimiter "k" 5).1
      (by intro p hp; simp [freshLimiter] at hp)).mpr (Or.inl (by decide))
  · exact (claim_C6_check_amended exhaustedLimiter "unknown" 100).2.1
      { count := 10, resetAt := 50000 } (by decide) (by decide) (by decide)
  · exact (claim_C6_check_amended freshLimiter "k" 0).2.2.2 0
      [1, 2, 3, 4, 5, 6, 7, 8, 9, 10] (by decide) (by decide) (by decide)
